import Mathlib

/-!
Verification of the mail-organizer RAG query engine
(`backend/src/rag_engine.py` and the storage layer in
`backend/src/storage/`), as a shallow embedding in Lean 4.

Python strings become `String`, floats carrying similarity scores become
`ℚ`, Python dicts that are returned as query results become structures
(with `Option` fields for keys that some code paths omit), and the
external collaborators (PostgreSQL storage, embedding service, LLM
provider) become function-valued fields of the engine record, as in the
spec's §6 interface list.  A fallible Python function is embedded with
`Except` so that "raises" and "returns" stay distinguishable.
-/

/-- Python `needle == hay[:len(needle)]` over explicit character lists:
`hasPre needle hay` is true when `needle` is an initial segment of `hay`. -/
def hasPre : List Char → List Char → Bool
  | [], _ => true
  | _ :: _, [] => false
  | a :: as, b :: bs => a == b && hasPre as bs

/-- Python substring containment ( the `in` operator on `str`) over
character lists: `hasSub needle hay` is true when `needle` occurs
contiguously inside `hay`. -/
def hasSub (needle : List Char) : List Char → Bool
  | [] => hasPre needle []
  | c :: rest => hasPre needle (c :: rest) || hasSub needle rest

/-- Python `needle in hay` on strings. -/
def strContains (hay needle : String) : Bool :=
  hasSub needle.toList hay.toList

/-- Python `str.lower()`: character-wise lower-casing (ASCII letters are
the only ones the question keywords use).  Defined over the character
list so that it evaluates by kernel reduction. -/
def lowerStr (s : String) : String :=
  String.mk (s.data.map Char.toLower)

/-- The hyphen-to-space normalization `label.replace("-", " ")` used when
matching hyphenated vocabulary labels, character-wise. -/
def dashToSpace (s : String) : String :=
  String.mk (s.data.map fun c => if c == '-' then ' ' else c)

/-- Message record as used by `rag_engine.py` and `storage.py`
(`models/message.py` itself is not in the excerpt; the fields are the
ones the engine and the storage layer read: `id`, `subject`, `from_`,
`snippet`, `internal_date`, `classification_labels`, plus the stored
`embedding` the similarity search runs over, per spec §3). -/
structure MailMessage where
  id : String
  subject : String
  from_ : String
  snippet : String
  internal_date : Int
  embedding : Option (List ℚ)
  classification_labels : Option (List String)
deriving DecidableEq, Repr

/-- Modelled from the spec: the closed classification-label vocabulary of
§6, used by the missing `classification_labels.py` module. -/
def labelVocab : List String :=
  ["finance", "banking", "investments", "security", "authentication",
   "meetings", "appointments", "personal", "work", "career", "shopping",
   "social", "entertainment", "news", "newsletters", "promotions",
   "marketing", "spam", "travel", "health", "education", "legal", "taxes",
   "receipts", "notifications", "updates", "alerts", "support", "bills",
   "insurance", "job-application", "job-interview", "job-offer",
   "job-rejection", "job-ad", "job-followup"]

/-- Modelled from the spec: label matching over an already lower-cased
question.  §4.2: "first vocabulary entry whose token appears in the
lower-cased question; no fuzzy matching, no scoring".  A hyphenated label
is matched by its space-separated token (the §8 scenario matches
"job-rejection" inside "how many job rejections did I get"). -/
def getLabelFromLower (ql : String) : Option String :=
  labelVocab.find? fun l => strContains ql (dashToSpace l)

/-- Modelled from the spec: `get_label_from_query` of the missing
`classification_labels.py`; §4.2 `matchLabel(question) -> Label | none`,
case-insensitive. -/
def get_label_from_query (question : String) : Option String :=
  getLabelFromLower (lowerStr question)

/-- Modelled from the spec: `is_classification_query` of the missing
`classification_labels.py`; true when the label matcher finds a label. -/
def is_classification_query (question : String) : Bool :=
  (get_label_from_query question).isSome

/-- The `pure_temporal_keywords` list of
`RAGQueryEngine._detect_query_type` (rag_engine.py lines 97-101). -/
def pureTemporalKeywords : List String :=
  ["last", "recent", "latest", "newest", "oldest", "first",
   "today", "yesterday", "this week", "this month", "this year",
   "unread", "starred", "important"]

/-- The listing patterns of `_detect_query_type` (rag_engine.py line 109). -/
def temporalListPatterns : List String :=
  ["my emails", "all emails", "show emails", "list emails"]

/-- Body of `_detect_query_type` applied to the lower-cased question:
classification check first, then the pure temporal keywords, then the
listing patterns, else "semantic" (rag_engine.py lines 90-113).  The
label check is on the lower-cased text because the modelled
`is_classification_query` is itself case-insensitive. -/
def detectCore (ql : String) : String :=
  if (getLabelFromLower ql).isSome then "classification"
  else if pureTemporalKeywords.any (fun k => strContains ql k) then "temporal"
  else if temporalListPatterns.any (fun p => strContains ql p) then "temporal"
  else "semantic"

/-- `RAGQueryEngine._detect_query_type` (rag_engine.py lines 81-113). -/
def detect_query_type (question : String) : String :=
  detectCore (lowerStr question)

/-- A source citation entry as built by the three handlers of
`rag_engine.py` (message_id, subject, from, snippet, similarity, date). -/
structure Source where
  message_id : String
  subject : String
  from_ : String
  snippet : String
  similarity : ℚ
  date : Int
deriving DecidableEq, Repr

/-- A neighbor summary as returned by `find_similar_emails`
(rag_engine.py lines 333-344): a `Source` plus the label list. -/
structure SimilarSource where
  message_id : String
  subject : String
  from_ : String
  snippet : String
  similarity : ℚ
  date : Int
  labels : List String
deriving DecidableEq, Repr

/-- The result dict assembled by `RAGQueryEngine.query` and its handlers.
The Python code returns plain dicts whose key set varies by path:
`query_type` and `total_count` are `Option` because some paths omit those
keys (`none` = key absent from the returned dict). -/
structure QueryResult where
  answer : String
  sources : List Source
  question : String
  confidence : String
  query_type : Option String
  total_count : Option Nat
deriving DecidableEq, Repr

/-- Failure kinds of the spec's §7 error model.  The embedded engine
functions return `Except RagError _` so that a path that raises and a
path that returns a value are distinguishable; `rag_engine.py` itself
never raises in `find_similar_emails`, so every branch of its embedding
is `Except.ok`. -/
inductive RagError where
  | notFound
deriving DecidableEq, Repr

/-- Storage collaborator as consumed by the engine (spec §6).  The
concrete `PostgresStorage` is not in the excerpt; each field is the
operation signature the engine calls.  `get_embedding` models the raw
`SELECT embedding FROM messages WHERE id = %s AND embedding IS NOT NULL`
of rag_engine.py lines 309-315 (`none` = no row, i.e. unknown id or NULL
embedding). -/
structure StorageModel where
  get_message_by_id : String → Option MailMessage
  get_embedding : String → Option (List ℚ)
  list_messages : Nat → Nat → List MailMessage
  list_messages_by_label : String → Nat → Nat → List MailMessage × Nat
  similarity_search : List ℚ → Nat → ℚ → List (MailMessage × ℚ)

/-- `RAGQueryEngine` (rag_engine.py lines 15-45): storage, embedding
service (`embed_text`), LLM call (`call_llm`, abstracting the provider
dispatch of `_call_llm`, which is network I/O), default `top_k`, and the
two context-building entry points of the missing `context_builder.py`. -/
structure RAGQueryEngine where
  storage : StorageModel
  embed_text : String → List ℚ
  call_llm : String → String
  top_k : Nat
  build_context : List (MailMessage × ℚ) → String
  build_context_from_messages : List MailMessage → String

/-- Prompt of `RAGQueryEngine._generate_answer` (rag_engine.py lines
357-376), with the context and question interpolated. -/
def semanticPrompt (question context : String) : String :=
  "You are an email assistant. I have retrieved emails from the user\x27s mailbox and YOU MUST analyze them.\n\nCRITICAL: The emails below are REAL emails from the user\x27s database. You have been given these emails TO ANALYZE - this is your job. Do NOT refuse or say you cannot access them.\n\nYOUR TASK:\n- For \"how many\" questions: Count the emails that match based on subject/content\n- For other questions: Extract and summarize the relevant information\n- Be specific and cite emails by their numbers\n\n===== EMAILS FROM USER\x27S MAILBOX =====\n\n" ++ context ++ "\n\n===== USER QUESTION =====\n\n" ++ question ++ "\n\n===== YOUR ANSWER =====\n\nAnalyzing the emails above:"

/-- `RAGQueryEngine._generate_answer` (rag_engine.py lines 346-378). -/
def generate_answer (e : RAGQueryEngine) (question context : String) : String :=
  e.call_llm (semanticPrompt question context)

/-- Prompt of `RAGQueryEngine._generate_answer_classification`
(rag_engine.py lines 394-412). -/
def classificationPrompt (question context : String) (shown total_count : Nat) (label : String) : String :=
  "You are an email assistant with direct access to the user\x27s email database.\n\nThe user has asked about emails with the classification label: \"" ++ label ++ "\"\n\nTOTAL EMAILS WITH THIS LABEL: " ++ toString total_count ++ "\n\nI am providing you with " ++ toString shown ++ " sample emails (limited for context) from this category.\n\n===== SAMPLE EMAILS WITH LABEL \"" ++ label ++ "\" =====\n\n" ++ context ++ "\n\n===== USER QUESTION =====\n\n" ++ question ++ "\n\n===== YOUR ANSWER =====\n\nBased on the classification data, there are " ++ toString total_count ++ " emails labeled as \"" ++ label ++ "\". Here is the detailed answer:"

/-- `RAGQueryEngine._generate_answer_classification` (rag_engine.py
lines 380-414). -/
def generate_answer_classification (e : RAGQueryEngine) (question context : String)
    (messages : List MailMessage) (total_count : Nat) (label : String) : String :=
  e.call_llm (classificationPrompt question context messages.length total_count label)

/-- Prompt of `RAGQueryEngine._generate_answer_temporal` (rag_engine.py
lines 428-444). -/
def temporalPrompt (question context : String) : String :=
  "You are an email assistant with direct access to the user\x27s email database.\n\nI am providing you with the user\x27s actual emails from their database. You MUST analyze these emails to answer their question.\n\nIMPORTANT: You have full access to these emails - they are real emails from the user\x27s mailbox. Analyze them and provide a helpful answer.\n\n===== USER\x27S EMAILS (sorted by date, newest first) =====\n\n" ++ context ++ "\n\n===== USER QUESTION =====\n\n" ++ question ++ "\n\n===== YOUR ANSWER =====\n\nBased on the emails above, here is the answer:"

/-- `RAGQueryEngine._generate_answer_temporal` (rag_engine.py lines
416-446). -/
def generate_answer_temporal (e : RAGQueryEngine) (question context : String)
    (_messages : List MailMessage) : String :=
  e.call_llm (temporalPrompt question context)

/-- The counting-language markers of `_handle_semantic_query`
(rag_engine.py line 233). -/
def countingWords : List String := ["how many", "count", "number of"]

/-- `is_counting_query` of `_handle_semantic_query` (rag_engine.py lines
232-233): any counting word occurs in the lower-cased question. -/
def isCountingQuery (question : String) : Bool :=
  countingWords.any fun w => strContains (lowerStr question) w

/-- Search limit actually used by `_handle_semantic_query`: raised to at
least 50 for counting queries (rag_engine.py line 237). -/
def effectiveLimit (question : String) (limit : Nat) : Nat :=
  if isCountingQuery question then max limit 50 else limit

/-- Similarity threshold actually used by `_handle_semantic_query`:
lowered to at most 0.25 for counting queries (rag_engine.py line 238). -/
def effectiveThreshold (question : String) (threshold : ℚ) : ℚ :=
  if isCountingQuery question then min threshold (1/4) else threshold

/-- The similarity-search invocation of `_handle_semantic_query`
(rag_engine.py lines 241-248): the question is embedded and the search is
issued with the counting-adapted limit and threshold. -/
def semanticSearchCall (e : RAGQueryEngine) (question : String)
    (limit : Nat) (threshold : ℚ) : List (MailMessage × ℚ) :=
  e.storage.similarity_search (e.embed_text question)
    (effectiveLimit question limit) (effectiveThreshold question threshold)

/-- `RAGQueryEngine._handle_semantic_query` (rag_engine.py lines
220-284).  The second component counts LLM generation calls (the Python
calls `_generate_answer` exactly on the non-empty branch). -/
def handle_semantic_query (e : RAGQueryEngine) (question : String)
    (limit : Nat) (threshold : ℚ) : QueryResult × Nat :=
  let similar_emails := semanticSearchCall e question limit threshold
  match similar_emails with
  | [] =>
    ({ answer := "I couldn\x27t find any relevant emails to answer your question.",
       sources := [], question := question, confidence := "none",
       query_type := some "semantic", total_count := none }, 0)
  | (_, s0) :: _ =>
    let context := e.build_context similar_emails
    let answer := generate_answer e question context
    let sources := similar_emails.map fun p =>
      { message_id := p.1.id, subject := p.1.subject, from_ := p.1.from_,
        snippet := p.1.snippet, similarity := p.2, date := p.1.internal_date : Source }
    ({ answer := answer, sources := sources, question := question,
       confidence := if s0 > 4/5 then "high" else if s0 > 3/5 then "medium" else "low",
       query_type := some "semantic", total_count := none }, 1)

/-- `RAGQueryEngine._handle_classification_query` (rag_engine.py lines
115-170): label lookup, fallback to the semantic handler with threshold
0.5 when no label matches, otherwise filter by label with a templated
zero-match answer. -/
def handle_classification_query (e : RAGQueryEngine) (question : String)
    (limit : Nat) : QueryResult × Nat :=
  match get_label_from_query question with
  | none => handle_semantic_query e question limit (1 / 2)
  | some matched_label =>
    let looked := e.storage.list_messages_by_label matched_label limit 0
    let emails := looked.1
    let total_count := looked.2
    match emails with
    | [] =>
      ({ answer := "I couldn\x27t find any emails with the label \x27" ++
           matched_label ++ "\x27 in the database.",
         sources := [], question := question, confidence := "none",
         query_type := some "classification", total_count := none }, 0)
    | _ =>
      let context := e.build_context_from_messages emails
      let answer := generate_answer_classification e question context emails total_count matched_label
      let sources := emails.map fun msg =>
        { message_id := msg.id, subject := msg.subject, from_ := msg.from_,
          snippet := msg.snippet, similarity := 1, date := msg.internal_date : Source }
      ({ answer := answer, sources := sources, question := question,
         confidence := "high", query_type := some "classification",
         total_count := some total_count }, 1)

/-- `RAGQueryEngine._handle_temporal_query` (rag_engine.py lines
172-218).  Note the zero-match dict (lines 185-191) has no `query_type`
key, hence `query_type := none` there. -/
def handle_temporal_query (e : RAGQueryEngine) (question : String)
    (limit : Nat) : QueryResult × Nat :=
  let recent_emails := e.storage.list_messages limit 0
  match recent_emails with
  | [] =>
    ({ answer := "I couldn\x27t find any emails in the database.",
       sources := [], question := question, confidence := "none",
       query_type := none, total_count := none }, 0)
  | _ =>
    let context := e.build_context_from_messages recent_emails
    let answer := generate_answer_temporal e question context recent_emails
    let sources := recent_emails.map fun msg =>
      { message_id := msg.id, subject := msg.subject, from_ := msg.from_,
        snippet := msg.snippet, similarity := 1, date := msg.internal_date : Source }
    ({ answer := answer, sources := sources, question := question,
       confidence := "high", query_type := some "temporal",
       total_count := none }, 1)

/-- The `k = top_k or self.top_k` resolution of `RAGQueryEngine.query`
(rag_engine.py line 66): Python `or` takes the default both for `None`
and for the falsy `0`. -/
def resolveTopK (top_k : Option Nat) (dflt : Nat) : Nat :=
  match top_k with
  | none => dflt
  | some k => if k == 0 then dflt else k

/-- `RAGQueryEngine.query` (rag_engine.py lines 47-79): resolve `top_k`,
detect the query type, dispatch to the matching handler. -/
def query (e : RAGQueryEngine) (question : String) (top_k : Option Nat)
    (similarity_threshold : ℚ) : QueryResult × Nat :=
  let k := resolveTopK top_k e.top_k
  let query_type := detect_query_type question
  if query_type = "classification" then handle_classification_query e question k
  else if query_type = "temporal" then handle_temporal_query e question k
  else handle_semantic_query e question k similarity_threshold

/-- `RAGQueryEngine.find_similar_emails` (rag_engine.py lines 286-344).
Every Python `return` is `Except.ok`; the function never raises.  The
`if embedding.isEmpty` guard mirrors `if not row or not row[0]` (line
317), where an empty embedding list is falsy. -/
def find_similar_emails (e : RAGQueryEngine) (message_id : String)
    (limit : Nat) : Except RagError (List SimilarSource) :=
  match e.storage.get_message_by_id message_id with
  | none => .ok []
  | some _ =>
    match e.storage.get_embedding message_id with
    | none => .ok []
    | some embedding =>
      if embedding.isEmpty then .ok []
      else
        let similar_emails := e.storage.similarity_search embedding (limit + 1) (1 / 2)
        let filtered := similar_emails.filter fun p => p.1.id != message_id
        .ok ((filtered.take limit).map fun p =>
          { message_id := p.1.id, subject := p.1.subject, from_ := p.1.from_,
            snippet := p.1.snippet, similarity := p.2, date := p.1.internal_date,
            labels := p.1.classification_labels.getD [] : SimilarSource })

namespace InMemoryStorage

/-- `InMemoryStorage.list_messages` (storage/storage.py lines 104-105):
`list(self._messages.values())[offset:offset+limit]`.  The dict holds
messages in insertion order, embedded here as the list `messages`; the
slice is drop-then-take, with no sorting and no filtering. -/
def list_messages (messages : List MailMessage) (limit : Nat) (offset : Nat) :
    List MailMessage :=
  (messages.drop offset).take limit

end InMemoryStorage

/-- Score-descending comparison on scored messages (ties allowed), the
order the spec's §4.5 contract requires of similarity-search output. -/
def scoreRel (a b : MailMessage × ℚ) : Prop := b.2 ≤ a.2

instance : DecidableRel scoreRel := fun a b => inferInstanceAs (Decidable (b.2 ≤ a.2))

instance : IsTotal (MailMessage × ℚ) scoreRel := ⟨fun a b => le_total b.2 a.2⟩

instance : IsTrans (MailMessage × ℚ) scoreRel :=
  ⟨fun _ _ _ hab hbc => le_trans hbc hab⟩

/-- Modelled from the spec: `PostgresStorage.similarity_search` is not in
the excerpt; §4.5/§6 describe it as nearest-neighbor search over the
stored message embeddings that discards scores below `threshold` and
returns `(message, score)` pairs descending by score, capped at `limit`.
The scoring function (cosine similarity in pgvector) is abstracted as the
parameter `score`. -/
def similaritySearchModel (store : List MailMessage)
    (score : List ℚ → List ℚ → ℚ) (query_embedding : List ℚ)
    (limit : Nat) (threshold : ℚ) : List (MailMessage × ℚ) :=
  let scored := store.filterMap fun m =>
    m.embedding.map fun emb => (m, score query_embedding emb)
  let kept := scored.filter fun p => decide (threshold ≤ p.2)
  (List.insertionSort scoreRel kept).take limit

/-- Boolean check that a list of dates is strictly descending
(newest first), the ordering §4.4 claims for temporal retrieval. -/
def datesDesc : List Int → Bool
  | [] => true
  | [_] => true
  | a :: b :: t => decide (b < a) && datesDesc (b :: t)

/-- The temporal branch conditions of `_detect_query_type` combined
(rag_engine.py lines 104-110): some pure temporal keyword or some listing
pattern occurs in the lower-cased question. -/
def hasTemporalMarker (ql : String) : Bool :=
  pureTemporalKeywords.any (fun k => strContains ql k) ||
    temporalListPatterns.any (fun p => strContains ql p)

/-- Concrete message builder used by the concrete test stores below. -/
def mkMsg (i : String) (d : Int) : MailMessage :=
  { id := i, subject := "subject " ++ i, from_ := "sender " ++ i,
    snippet := "snippet " ++ i, internal_date := d,
    embedding := none, classification_labels := none }

/-- Storage with no messages at all. -/
def emptyStorage : StorageModel :=
  { get_message_by_id := fun _ => none, get_embedding := fun _ => none,
    list_messages := fun _ _ => [], list_messages_by_label := fun _ _ _ => ([], 0),
    similarity_search := fun _ _ _ => [] }

/-- Engine over a given storage, with trivial embedding, LLM and context
collaborators (the claims under test do not depend on their outputs). -/
def mkEngine (st : StorageModel) : RAGQueryEngine :=
  { storage := st, embed_text := fun _ => [], call_llm := fun _ => "llm answer",
    top_k := 5, build_context := fun _ => "ctx",
    build_context_from_messages := fun _ => "ctx" }

/-- Storage that knows the message "m-1" but holds no embedding for it. -/
def noEmbStorage : StorageModel :=
  { emptyStorage with
    get_message_by_id := fun i => if i == "m-1" then some (mkMsg "m-1" 10) else none }

/-- The neighbor-summary record built for one scored message by the
result comprehension of `find_similar_emails` (rag_engine.py 333-344). -/
def toSimilar (m : MailMessage) (s : ℚ) : SimilarSource :=
  { message_id := m.id, subject := m.subject, from_ := m.from_,
    snippet := m.snippet, similarity := s, date := m.internal_date,
    labels := m.classification_labels.getD [] }

/-- Message "a" (the lookup target) and message "b" (its neighbor). -/
def msgA : MailMessage := mkMsg "a" 1

/-- Neighbor message for the `find_similar_emails` test store. -/
def msgB : MailMessage := mkMsg "b" 2

/-- Store where "a" exists with embedding `[1]` and the similarity search
returns "a" itself (score 1) followed by "b" (score 0.9). -/
def c6Storage : StorageModel :=
  { get_message_by_id := fun i => if i == "a" then some msgA else none,
    get_embedding := fun i => if i == "a" then some [1] else none,
    list_messages := fun _ _ => [],
    list_messages_by_label := fun _ _ _ => ([], 0),
    similarity_search := fun _ _ _ => [(msgA, 1), (msgB, 9 / 10)] }

/-- Search collaborator returning a single hit with similarity 0.72. -/
def c7Storage : StorageModel :=
  { emptyStorage with similarity_search := fun _ _ _ => [(msgA, 18 / 25)] }

/-- Store whose messages were inserted oldest-first (dates 1 then 2), as
the in-memory dict would hold them. -/
def ascStorage : StorageModel :=
  { emptyStorage with
    list_messages := InMemoryStorage.list_messages [mkMsg "m1" 1, mkMsg "m2" 2] }

/-- Store whose messages were inserted newest-first (dates 5 then 3). -/
def descStorage : StorageModel :=
  { emptyStorage with
    list_messages := InMemoryStorage.list_messages [mkMsg "n2" 5, mkMsg "n1" 3] }

/-- Store holding a single message, for exercising the non-empty temporal
path. -/
def oneMsgStorage : StorageModel :=
  { emptyStorage with
    list_messages := InMemoryStorage.list_messages [mkMsg "w1" 4] }

/-- Message with a stored embedding, for the similarity-search model. -/
def c9msg : MailMessage := { mkMsg "e1" 7 with embedding := some [1] }

/-- One-message corpus for the similarity-search model. -/
def c9store : List MailMessage := [c9msg]

/-- Constant scoring function (every embedding scores 0.9). -/
def c9f : List ℚ → List ℚ → ℚ := fun _ _ => 9 / 10

/-- Storage whose similarity search is the spec-modelled one. -/
def c9Storage : StorageModel :=
  { emptyStorage with similarity_search := similaritySearchModel c9store c9f }

/-- C1: the claim says `find_similar_emails` fails with `NotFound` when
the message id is unknown; on the code it instead returns successfully
with an empty list.  Concretely, with no message stored under "msg-42",
`find_similar_emails "msg-42" 5` returns `ok []`, not a `NotFound`
failure. -/
theorem c1_counterexample :
    (mkEngine emptyStorage).storage.get_message_by_id "msg-42" = none ∧
    find_similar_emails (mkEngine emptyStorage) "msg-42" 5 = .ok [] ∧
    find_similar_emails (mkEngine emptyStorage) "msg-42" 5 ≠
      Except.error RagError.notFound := by
  refine ⟨rfl, rfl, fun hcontra => ?_⟩
  exact Except.noConfusion hcontra

/-- C1 (amended): for every message id and limit, whenever the id is
unknown to storage or its embedding row is absent, `find_similar_emails`
returns an empty list (it does not fail). -/
theorem c1_absent_returns_empty (e : RAGQueryEngine) (message_id : String)
    (limit : Nat)
    (h : e.storage.get_message_by_id message_id = none ∨
         e.storage.get_embedding message_id = none) :
    find_similar_emails e message_id limit = .ok [] := by
  unfold find_similar_emails
  rcases h with h | h
  · simp [h]
  · cases hm : e.storage.get_message_by_id message_id with
    | none => simp
    | some m => simp [h]

/-- C1 witness: message "m-1" exists but has no stored embedding, and the
lookup returns an empty list. -/
theorem c1_witness :
    find_similar_emails (mkEngine noEmbStorage) "m-1" 3 = .ok [] :=
  c1_absent_returns_empty _ _ _ (Or.inr rfl)

/-- C6: for a message with a stored embedding, `find_similar_emails`
returns at most `limit` entries and never the original id itself (it
searches with `limit+1`, filters out the original, truncates). -/
theorem c6_find_similar_excludes_self (e : RAGQueryEngine)
    (message_id : String) (limit : Nat) (m : MailMessage) (emb : List ℚ)
    (l : List SimilarSource)
    (hm : e.storage.get_message_by_id message_id = some m)
    (he : e.storage.get_embedding message_id = some emb)
    (hne : emb.isEmpty = false)
    (hl : find_similar_emails e message_id limit = .ok l) :
    l.length ≤ limit ∧ ∀ s ∈ l, s.message_id ≠ message_id := by
  unfold find_similar_emails at hl
  simp only [hm, he] at hl
  rw [if_neg (by rw [hne]; exact Bool.false_ne_true)] at hl
  injection hl with hl
  subst hl
  constructor
  · rw [List.length_map]
    exact (List.length_take ..).le.trans (min_le_left _ _)
  · intro s hs
    obtain ⟨p, hp, rfl⟩ := List.mem_map.mp hs
    have hpf := List.take_subset _ _ hp
    have hne' := (List.mem_filter.mp hpf).2
    simpa using hne'

/-- C6 witness: with "a" stored (embedding `[1]`) and the search
returning "a" then "b", `findSimilar("a", 1)` returns exactly the "b"
entry: one entry, not the original id. -/
theorem c6_witness :
    [toSimilar msgB (9 / 10)].length ≤ 1 ∧
    (toSimilar msgB (9 / 10)).message_id ≠ "a" := by
  have h := c6_find_similar_excludes_self (mkEngine c6Storage) "a" 1 msgA [1]
    [toSimilar msgB (9 / 10)] rfl rfl rfl rfl
  exact ⟨h.1, h.2 _ (List.mem_singleton.mpr rfl)⟩

/-- C4: when the lower-cased question contains counting language, the
semantic handler issues the similarity search with the limit raised to
`max limit 50` (hence at least 50) and the threshold lowered to
`min threshold 0.25` (hence at most 0.25). -/
theorem c4_counting_adaptation (question : String) (limit : Nat)
    (threshold : ℚ) (h : isCountingQuery question = true) :
    effectiveLimit question limit = max limit 50 ∧
    50 ≤ effectiveLimit question limit ∧
    effectiveThreshold question threshold = min threshold (1 / 4) ∧
    effectiveThreshold question threshold ≤ 1 / 4 ∧
    ∀ e : RAGQueryEngine, semanticSearchCall e question limit threshold =
      e.storage.similarity_search (e.embed_text question) (max limit 50)
        (min threshold (1 / 4)) := by
  have hl : effectiveLimit question limit = max limit 50 := by
    simp [effectiveLimit, h]
  have ht : effectiveThreshold question threshold = min threshold (1 / 4) := by
    simp [effectiveThreshold, h]
  refine ⟨hl, ?_, ht, ?_, ?_⟩
  · rw [hl]; exact le_max_right _ _
  · rw [ht]; exact min_le_right _ _
  · intro e; rw [semanticSearchCall, hl, ht]

/-- C4 witness: the counting question "how many emails about rent" with
caller limit 5 and threshold 0.5 searches with limit ≥ 50 and threshold
≤ 0.25. -/
theorem c4_witness :
    50 ≤ effectiveLimit "how many emails about rent" 5 ∧
    effectiveThreshold "how many emails about rent" (1 / 2) ≤ 1 / 4 := by
  have h := c4_counting_adaptation "how many emails about rent" 5 (1 / 2) (by decide)
  exact ⟨h.2.1, h.2.2.2.1⟩

/-- C10: passing `top_k = 0` to `query` behaves exactly like omitting
`top_k`: the Python falsy check `top_k or self.top_k` substitutes the
constructor default in both cases. -/
theorem c10_top_k_zero_is_default (e : RAGQueryEngine) (question : String)
    (similarity_threshold : ℚ) :
    query e question (some 0) similarity_threshold =
      query e question none similarity_threshold ∧
    resolveTopK (some 0) e.top_k = e.top_k ∧
    resolveTopK none e.top_k = e.top_k :=
  ⟨rfl, rfl, rfl⟩

/-- C3: query-type detection is a total deterministic function of the
lower-cased question text returning exactly one of the three strategy
tags, with first-match-wins precedence: classification label match, then
temporal/structural markers, then semantic as default. -/
theorem c3_detect_total_deterministic (q1 q2 : String)
    (h : lowerStr q1 = lowerStr q2) :
    detect_query_type q1 = detect_query_type q2 ∧
    (detect_query_type q1 = "classification" ∨ detect_query_type q1 = "temporal" ∨
      detect_query_type q1 = "semantic") ∧
    (is_classification_query q1 = true → detect_query_type q1 = "classification") ∧
    (is_classification_query q1 = false → hasTemporalMarker (lowerStr q1) = true →
      detect_query_type q1 = "temporal") ∧
    (is_classification_query q1 = false → hasTemporalMarker (lowerStr q1) = false →
      detect_query_type q1 = "semantic") := by
  refine ⟨?_, ?_, ?_, ?_, ?_⟩
  · rw [detect_query_type, detect_query_type, h]
  · unfold detect_query_type detectCore
    split_ifs <;> simp
  · intro hc
    unfold is_classification_query get_label_from_query at hc
    unfold detect_query_type detectCore
    rw [if_pos hc]
  · intro hc hT
    unfold is_classification_query get_label_from_query at hc
    unfold hasTemporalMarker at hT
    unfold detect_query_type detectCore
    rw [if_neg (by simp [hc])]
    rcases Bool.or_eq_true_iff.mp hT with h1 | h2
    · rw [if_pos h1]
    · by_cases hk : pureTemporalKeywords.any (fun k => strContains (lowerStr q1) k) = true
      · rw [if_pos hk]
      · rw [if_neg hk, if_pos h2]
  · intro hc hT
    unfold is_classification_query get_label_from_query at hc
    unfold hasTemporalMarker at hT
    obtain ⟨h1, h2⟩ := Bool.or_eq_false_iff.mp hT
    unfold detect_query_type detectCore
    rw [if_neg (by simp [hc]), if_neg (by simp [h1]), if_neg (by simp [h2])]

/-- C3 witness: the detector is case-insensitive and classifies "Show me
RECENT mail" (a temporal-marker question with no vocabulary label) as
temporal, the same as its lower-cased form. -/
theorem c3_witness :
    detect_query_type "Show me RECENT mail" = detect_query_type "show me recent mail" ∧
    detect_query_type "Show me RECENT mail" = "temporal" := by
  have h := c3_detect_total_deterministic "Show me RECENT mail" "show me recent mail"
    (by decide)
  exact ⟨h.1, h.2.2.2.1 (by decide) (by decide)⟩

/-- C7: on a non-empty semantic result the confidence tier is computed
from the first (top) result's similarity score: above 0.8 "high", above
0.6 but at most 0.8 "medium", otherwise "low". -/
theorem c7_confidence_tiers (e : RAGQueryEngine) (question : String)
    (limit : Nat) (threshold : ℚ) (m0 : MailMessage) (s0 : ℚ)
    (rest : List (MailMessage × ℚ))
    (h : semanticSearchCall e question limit threshold = (m0, s0) :: rest) :
    ((handle_semantic_query e question limit threshold).1.confidence =
      if s0 > 4 / 5 then "high" else if s0 > 3 / 5 then "medium" else "low") ∧
    (4 / 5 < s0 →
      (handle_semantic_query e question limit threshold).1.confidence = "high") ∧
    (3 / 5 < s0 → s0 ≤ 4 / 5 →
      (handle_semantic_query e question limit threshold).1.confidence = "medium") ∧
    (s0 ≤ 3 / 5 →
      (handle_semantic_query e question limit threshold).1.confidence = "low") := by
  have hmain : (handle_semantic_query e question limit threshold).1.confidence =
      if s0 > 4 / 5 then "high" else if s0 > 3 / 5 then "medium" else "low" := by
    unfold handle_semantic_query
    rw [h]
  refine ⟨hmain, ?_, ?_, ?_⟩
  · intro h1
    rw [hmain, if_pos h1]
  · intro h1 h2
    rw [hmain, if_neg (not_lt.mpr h2), if_pos h1]
  · intro h1
    rw [hmain, if_neg (not_lt.mpr (h1.trans (by norm_num))), if_neg (not_lt.mpr h1)]

/-- C7 witness: the spec's scenario — a semantic question whose top
similarity is 0.72 yields confidence "medium". -/
theorem c7_witness :
    (handle_semantic_query (mkEngine c7Storage)
      "what did the bank say about my mortgage" 5 (1 / 2)).1.confidence = "medium" := by
  have h := c7_confidence_tiers (mkEngine c7Storage)
    "what did the bank say about my mortgage" 5 (1 / 2) msgA (18 / 25) [] rfl
  exact h.2.2.1 (by norm_num) (by norm_num)

/-- Unfolding of the semantic handler on an empty search result. -/
theorem handle_semantic_query_nil (e : RAGQueryEngine) (question : String)
    (limit : Nat) (threshold : ℚ)
    (h : semanticSearchCall e question limit threshold = []) :
    handle_semantic_query e question limit threshold =
      ({ answer := "I couldn\x27t find any relevant emails to answer your question.",
         sources := [], question := question, confidence := "none",
         query_type := some "semantic", total_count := none }, 0) := by
  unfold handle_semantic_query
  rw [h]

/-- Unfolding of the semantic handler on a non-empty search result. -/
theorem handle_semantic_query_cons (e : RAGQueryEngine) (question : String)
    (limit : Nat) (threshold : ℚ) (m0 : MailMessage) (s0 : ℚ)
    (rest : List (MailMessage × ℚ))
    (h : semanticSearchCall e question limit threshold = (m0, s0) :: rest) :
    handle_semantic_query e question limit threshold =
      ({ answer := generate_answer e question (e.build_context ((m0, s0) :: rest)),
         sources := ((m0, s0) :: rest).map fun p =>
           { message_id := p.1.id, subject := p.1.subject, from_ := p.1.from_,
             snippet := p.1.snippet, similarity := p.2, date := p.1.internal_date : Source },
         question := question,
         confidence := if s0 > 4 / 5 then "high" else if s0 > 3 / 5 then "medium" else "low",
         query_type := some "semantic", total_count := none }, 1) := by
  unfold handle_semantic_query
  rw [h]

/-- The classification handler falls back to the semantic handler with
threshold 0.5 when the label matcher finds nothing. -/
theorem handle_classification_query_fallback (e : RAGQueryEngine)
    (question : String) (limit : Nat)
    (h : get_label_from_query question = none) :
    handle_classification_query e question limit =
      handle_semantic_query e question limit (1 / 2) := by
  unfold handle_classification_query
  rw [h]

/-- Unfolding of the classification handler on a zero-match label. -/
theorem handle_classification_query_none (e : RAGQueryEngine)
    (question : String) (limit : Nat) (lbl : String) (total : Nat)
    (hlbl : get_label_from_query question = some lbl)
    (hc : e.storage.list_messages_by_label lbl limit 0 = ([], total)) :
    handle_classification_query e question limit =
      ({ answer := "I couldn\x27t find any emails with the label \x27" ++ lbl ++
           "\x27 in the database.",
         sources := [], question := question, confidence := "none",
         query_type := some "classification", total_count := none }, 0) := by
  unfold handle_classification_query
  simp only [hlbl, hc]

/-- Unfolding of the classification handler on a non-empty label match. -/
theorem handle_classification_query_cons (e : RAGQueryEngine)
    (question : String) (limit : Nat) (lbl : String) (m : MailMessage)
    (rest : List MailMessage) (total : Nat)
    (hlbl : get_label_from_query question = some lbl)
    (hc : e.storage.list_messages_by_label lbl limit 0 = (m :: rest, total)) :
    handle_classification_query e question limit =
      ({ answer := generate_answer_classification e question
           (e.build_context_from_messages (m :: rest)) (m :: rest) total lbl,
         sources := (m :: rest).map fun msg =>
           { message_id := msg.id, subject := msg.subject, from_ := msg.from_,
             snippet := msg.snippet, similarity := 1, date := msg.internal_date : Source },
         question := question, confidence := "high",
         query_type := some "classification", total_count := some total }, 1) := by
  unfold handle_classification_query
  simp only [hlbl, hc]

/-- Unfolding of the temporal handler on an empty mailbox. -/
theorem handle_temporal_query_nil (e : RAGQueryEngine) (question : String)
    (limit : Nat) (h : e.storage.list_messages limit 0 = []) :
    handle_temporal_query e question limit =
      ({ answer := "I couldn\x27t find any emails in the database.",
         sources := [], question := question, confidence := "none",
         query_type := none, total_count := none }, 0) := by
  unfold handle_temporal_query
  rw [h]

/-- Unfolding of the temporal handler on a non-empty mailbox. -/
theorem handle_temporal_query_cons (e : RAGQueryEngine) (question : String)
    (limit : Nat) (m : MailMessage) (rest : List MailMessage)
    (h : e.storage.list_messages limit 0 = m :: rest) :
    handle_temporal_query e question limit =
      ({ answer := generate_answer_temporal e question
           (e.build_context_from_messages (m :: rest)) (m :: rest),
         sources := (m :: rest).map fun msg =>
           { message_id := msg.id, subject := msg.subject, from_ := msg.from_,
             snippet := msg.snippet, similarity := 1, date := msg.internal_date : Source },
         question := question, confidence := "high",
         query_type := some "temporal", total_count := none }, 1) := by
  unfold handle_temporal_query
  rw [h]

/-- C2: whenever the selected retrieval path returns zero matches, the
handler for that path yields confidence "none", an empty source list and
its templated answer, and performs zero LLM generation calls — each path
under only its own zero-match hypothesis. -/
theorem c2_zero_match_paths (e : RAGQueryEngine) (question lbl : String)
    (limit : Nat) (threshold : ℚ) (total : Nat) :
    (get_label_from_query question = some lbl →
     e.storage.list_messages_by_label lbl limit 0 = ([], total) →
     (handle_classification_query e question limit).1.confidence = "none" ∧
     (handle_classification_query e question limit).1.sources = [] ∧
     (handle_classification_query e question limit).1.answer =
       "I couldn\x27t find any emails with the label \x27" ++ lbl ++
         "\x27 in the database." ∧
     (handle_classification_query e question limit).2 = 0) ∧
    (e.storage.list_messages limit 0 = [] →
     (handle_temporal_query e question limit).1.confidence = "none" ∧
     (handle_temporal_query e question limit).1.sources = [] ∧
     (handle_temporal_query e question limit).1.answer =
       "I couldn\x27t find any emails in the database." ∧
     (handle_temporal_query e question limit).2 = 0) ∧
    (semanticSearchCall e question limit threshold = [] →
     (handle_semantic_query e question limit threshold).1.confidence = "none" ∧
     (handle_semantic_query e question limit threshold).1.sources = [] ∧
     (handle_semantic_query e question limit threshold).1.answer =
       "I couldn\x27t find any relevant emails to answer your question." ∧
     (handle_semantic_query e question limit threshold).2 = 0) := by
  refine ⟨fun hlbl hc => ?_, fun ht => ?_, fun hs => ?_⟩
  · rw [handle_classification_query_none e question limit lbl total hlbl hc]
    simp
  · rw [handle_temporal_query_nil e question limit ht]
    simp
  · rw [handle_semantic_query_nil e question limit threshold hs]
    simp

/-- C2 witness: one question per path, each routed to that path by the
detector — the classification path on "how many job rejections did I
get", the temporal path on "show me my most recent emails", and the
semantic path on "what did the bank say about my mortgage" — each
against an empty store: templated no-match results and zero LLM calls. -/
theorem c2_witness :
    detect_query_type "how many job rejections did I get" = "classification" ∧
    (handle_classification_query (mkEngine emptyStorage)
      "how many job rejections did I get" 5).1.confidence = "none" ∧
    (handle_classification_query (mkEngine emptyStorage)
      "how many job rejections did I get" 5).2 = 0 ∧
    detect_query_type "show me my most recent emails" = "temporal" ∧
    (handle_temporal_query (mkEngine emptyStorage)
      "show me my most recent emails" 5).1.confidence = "none" ∧
    (handle_temporal_query (mkEngine emptyStorage)
      "show me my most recent emails" 5).2 = 0 ∧
    detect_query_type "what did the bank say about my mortgage" = "semantic" ∧
    (handle_semantic_query (mkEngine emptyStorage)
      "what did the bank say about my mortgage" 5 (1 / 2)).1.sources = [] ∧
    (handle_semantic_query (mkEngine emptyStorage)
      "what did the bank say about my mortgage" 5 (1 / 2)).2 = 0 := by
  have hc := (c2_zero_match_paths (mkEngine emptyStorage)
    "how many job rejections did I get" "job-rejection" 5 (1 / 2) 0).1
    (by decide) rfl
  have ht := (c2_zero_match_paths (mkEngine emptyStorage)
    "show me my most recent emails" "job-rejection" 5 (1 / 2) 0).2.1 rfl
  have hs := (c2_zero_match_paths (mkEngine emptyStorage)
    "what did the bank say about my mortgage" "job-rejection" 5 (1 / 2) 0).2.2 rfl
  exact ⟨by decide, hc.1, hc.2.2.2, by decide, ht.1, ht.2.2.2, by decide,
    hs.2.1, hs.2.2.2⟩

/-- The semantic handler always tags its result `semantic` and reports
one of the four confidence tiers. -/
theorem semantic_result_shape (e : RAGQueryEngine) (question : String)
    (limit : Nat) (thr : ℚ) :
    (handle_semantic_query e question limit thr).1.query_type = some "semantic" ∧
    ((handle_semantic_query e question limit thr).1.confidence = "none" ∨
     (handle_semantic_query e question limit thr).1.confidence = "low" ∨
     (handle_semantic_query e question limit thr).1.confidence = "medium" ∨
     (handle_semantic_query e question limit thr).1.confidence = "high") := by
  cases hq : semanticSearchCall e question limit thr with
  | nil =>
    rw [handle_semantic_query_nil _ _ _ _ hq]
    simp
  | cons p rest =>
    obtain ⟨m0, s0⟩ := p
    rw [handle_semantic_query_cons _ _ _ _ _ _ _ hq]
    refine ⟨rfl, ?_⟩
    split_ifs <;> simp

/-- The classification handler always carries a strategy tag and a
confidence tier. -/
theorem classification_result_shape (e : RAGQueryEngine) (question : String)
    (limit : Nat) :
    (handle_classification_query e question limit).1.query_type ≠ none ∧
    ((handle_classification_query e question limit).1.confidence = "none" ∨
     (handle_classification_query e question limit).1.confidence = "low" ∨
     (handle_classification_query e question limit).1.confidence = "medium" ∨
     (handle_classification_query e question limit).1.confidence = "high") := by
  cases hl : get_label_from_query question with
  | none =>
    rw [handle_classification_query_fallback _ _ _ hl]
    have h := semantic_result_shape e question limit (1 / 2)
    exact ⟨by rw [h.1]; simp, h.2⟩
  | some lbl =>
    rcases hc : e.storage.list_messages_by_label lbl limit 0 with ⟨emails, total⟩
    cases emails with
    | nil =>
      rw [handle_classification_query_none _ _ _ _ _ hl hc]
      simp
    | cons m rest =>
      rw [handle_classification_query_cons _ _ _ _ _ _ _ hl hc]
      simp

/-- The temporal handler reports a confidence tier, and omits the
strategy tag only on its zero-match result (where the answer is the
templated one and the sources are empty). -/
theorem temporal_result_shape (e : RAGQueryEngine) (question : String)
    (limit : Nat) :
    ((handle_temporal_query e question limit).1.confidence = "none" ∨
     (handle_temporal_query e question limit).1.confidence = "low" ∨
     (handle_temporal_query e question limit).1.confidence = "medium" ∨
     (handle_temporal_query e question limit).1.confidence = "high") ∧
    ((handle_temporal_query e question limit).1.query_type = none →
      (handle_temporal_query e question limit).1.confidence = "none" ∧
      (handle_temporal_query e question limit).1.sources = [] ∧
      (handle_temporal_query e question limit).1.answer =
        "I couldn\x27t find any emails in the database.") := by
  cases ht : e.storage.list_messages limit 0 with
  | nil =>
    rw [handle_temporal_query_nil _ _ _ ht]
    simp
  | cons m rest =>
    rw [handle_temporal_query_cons _ _ _ _ _ ht]
    simp

/-- Strict date-descending order is preserved by truncation. -/
theorem datesDesc_take : ∀ (l : List Int) (n : Nat),
    datesDesc l = true → datesDesc (l.take n) = true := by
  intro l
  induction l with
  | nil =>
    intro n _
    rw [List.take_nil]
    rfl
  | cons a t ih =>
    intro n h
    cases n with
    | zero => rfl
    | succ m =>
      cases t with
      | nil =>
        rw [List.take_succ_cons, List.take_nil]
        rfl
      | cons b t' =>
        have heq : datesDesc (a :: b :: t') =
            (decide (b < a) && datesDesc (b :: t')) := rfl
        rw [heq] at h
        rw [Bool.and_eq_true] at h
        obtain ⟨hab, ht⟩ := h
        cases m with
        | zero =>
          rw [List.take_succ_cons]
          rfl
        | succ m' =>
          have hih := ih (m' + 1) ht
          rw [List.take_succ_cons] at hih
          rw [List.take_succ_cons, List.take_succ_cons]
          have heq2 : datesDesc (a :: b :: List.take m' t') =
              (decide (b < a) && datesDesc (b :: List.take m' t')) := rfl
          rw [heq2, Bool.and_eq_true]
          exact ⟨hab, hih⟩

/-- Every entry of the modelled similarity search scores at least the
threshold. -/
theorem similaritySearchModel_threshold (store : List MailMessage)
    (f : List ℚ → List ℚ → ℚ) (qv : List ℚ) (limit : Nat) (threshold : ℚ) :
    ∀ p ∈ similaritySearchModel store f qv limit threshold, threshold ≤ p.2 := by
  intro p hp
  unfold similaritySearchModel at hp
  have h1 := List.take_subset _ _ hp
  have h2 := (List.mem_insertionSort scoreRel).mp h1
  have h3 := (List.mem_filter.mp h2).2
  exact of_decide_eq_true h3

/-- The modelled similarity search is weakly descending by score. -/
theorem similaritySearchModel_sorted (store : List MailMessage)
    (f : List ℚ → List ℚ → ℚ) (qv : List ℚ) (limit : Nat) (threshold : ℚ) :
    List.Pairwise scoreRel (similaritySearchModel store f qv limit threshold) := by
  unfold similaritySearchModel
  exact List.Pairwise.sublist (List.take_sublist _ _)
    (List.sorted_insertionSort scoreRel _)

/-- C5: the claim says the temporal path returns messages strictly
ordered newest-first regardless of the storage backend; with the
in-memory backend (which returns dict-insertion order, unsorted) a store
inserted oldest-first comes back with dates [1, 2], which is not
descending. -/
theorem c5_counterexample :
    (handle_temporal_query (mkEngine ascStorage)
      "what are my latest messages" 10).1.sources.map (fun s => s.date) = [1, 2] ∧
    datesDesc [1, 2] = false :=
  ⟨rfl, rfl⟩

/-- C5 (amended): the temporal path returns `storage.list_messages(limit,
0)` with no filtering; over the in-memory backend that is the first
`limit` stored messages in insertion order, so the output is
newest-first exactly when the stored order is. -/
theorem c5_amended (e : RAGQueryEngine) (messages : List MailMessage)
    (question : String) (limit : Nat)
    (h : e.storage.list_messages = InMemoryStorage.list_messages messages) :
    ((handle_temporal_query e question limit).1.sources.map (fun s => s.message_id) =
      (messages.take limit).map (fun m => m.id)) ∧
    (datesDesc (messages.map (fun m => m.internal_date)) = true →
      datesDesc ((handle_temporal_query e question limit).1.sources.map
        (fun s => s.date)) = true) := by
  have hlist : e.storage.list_messages limit 0 = messages.take limit := by
    rw [h]
    unfold InMemoryStorage.list_messages
    rw [List.drop_zero]
  have hsources : (handle_temporal_query e question limit).1.sources =
      (messages.take limit).map (fun msg =>
        { message_id := msg.id, subject := msg.subject, from_ := msg.from_,
          snippet := msg.snippet, similarity := 1, date := msg.internal_date : Source }) := by
    cases hm : messages.take limit with
    | nil =>
      rw [handle_temporal_query_nil e question limit (by rw [hlist, hm])]
      simp
    | cons a t =>
      rw [handle_temporal_query_cons e question limit a t (by rw [hlist, hm])]
  constructor
  · rw [hsources, List.map_map]
    rfl
  · intro hd
    rw [hsources, List.map_map]
    have hcomp : ((fun s : Source => s.date) ∘ (fun msg : MailMessage =>
        { message_id := msg.id, subject := msg.subject, from_ := msg.from_,
          snippet := msg.snippet, similarity := 1, date := msg.internal_date : Source })) =
        fun m : MailMessage => m.internal_date := rfl
    rw [hcomp, List.map_take]
    exact datesDesc_take _ _ hd

/-- C5 witness: a store inserted newest-first (dates 5, 3) is returned in
that order by the temporal path, and the output is date-descending. -/
theorem c5_witness :
    ((handle_temporal_query (mkEngine descStorage) "recent mail" 5).1.sources.map
      (fun s => s.message_id) = ["n2", "n1"]) ∧
    datesDesc ((handle_temporal_query (mkEngine descStorage)
      "recent mail" 5).1.sources.map (fun s => s.date)) = true := by
  have h := c5_amended (mkEngine descStorage) [mkMsg "n2" 5, mkMsg "n1" 3]
    "recent mail" 5 rfl
  refine ⟨?_, h.2 (by decide)⟩
  rw [h.1]
  decide

/-- C8: the claim says every result of all three strategies carries the
strategy tag; the temporal zero-match result dict (rag_engine.py lines
185-191) has no `query_type` key.  Concretely, "show me my most recent
emails" routes to the temporal path, and with an empty store the result
carries no strategy tag. -/
theorem c8_counterexample :
    detect_query_type "show me my most recent emails" = "temporal" ∧
    (query (mkEngine emptyStorage) "show me my most recent emails" none
      (1 / 2)).1.query_type = none := by
  exact ⟨by decide, rfl⟩

/-- C8 (amended): every result of `query` carries a confidence tier, and
carries the strategy tag except on the temporal zero-match result, the
one path whose dict omits `query_type` (identifiable by its templated
answer, empty sources and confidence "none"). -/
theorem c8_amended (e : RAGQueryEngine) (question : String)
    (top_k : Option Nat) (threshold : ℚ) :
    ((query e question top_k threshold).1.confidence = "none" ∨
     (query e question top_k threshold).1.confidence = "low" ∨
     (query e question top_k threshold).1.confidence = "medium" ∨
     (query e question top_k threshold).1.confidence = "high") ∧
    ((query e question top_k threshold).1.query_type = none →
      (query e question top_k threshold).1.confidence = "none" ∧
      (query e question top_k threshold).1.sources = [] ∧
      (query e question top_k threshold).1.answer =
        "I couldn\x27t find any emails in the database.") := by
  have hq : query e question top_k threshold =
      (if detect_query_type question = "classification" then
        handle_classification_query e question (resolveTopK top_k e.top_k)
       else if detect_query_type question = "temporal" then
        handle_temporal_query e question (resolveTopK top_k e.top_k)
       else handle_semantic_query e question (resolveTopK top_k e.top_k) threshold) := rfl
  rw [hq]
  by_cases h1 : detect_query_type question = "classification"
  · rw [if_pos h1]
    have hs := classification_result_shape e question (resolveTopK top_k e.top_k)
    exact ⟨hs.2, fun hqt => absurd hqt hs.1⟩
  · rw [if_neg h1]
    by_cases h2 : detect_query_type question = "temporal"
    · rw [if_pos h2]
      exact temporal_result_shape e question (resolveTopK top_k e.top_k)
    · rw [if_neg h2]
      have hs := semantic_result_shape e question (resolveTopK top_k e.top_k) threshold
      refine ⟨hs.2, fun hqt => ?_⟩
      rw [hs.1] at hqt
      exact Option.noConfusion hqt

/-- C8 witness: the amended statement instantiated at a one-message store
and the temporal listing question "list emails". -/
theorem c8_witness :
    ((query (mkEngine oneMsgStorage) "list emails" none (1 / 2)).1.confidence = "none" ∨
     (query (mkEngine oneMsgStorage) "list emails" none (1 / 2)).1.confidence = "low" ∨
     (query (mkEngine oneMsgStorage) "list emails" none (1 / 2)).1.confidence = "medium" ∨
     (query (mkEngine oneMsgStorage) "list emails" none (1 / 2)).1.confidence = "high") ∧
    ((query (mkEngine oneMsgStorage) "list emails" none (1 / 2)).1.query_type = none →
      (query (mkEngine oneMsgStorage) "list emails" none (1 / 2)).1.confidence = "none" ∧
      (query (mkEngine oneMsgStorage) "list emails" none (1 / 2)).1.sources = [] ∧
      (query (mkEngine oneMsgStorage) "list emails" none (1 / 2)).1.answer =
        "I couldn\x27t find any emails in the database.") :=
  c8_amended (mkEngine oneMsgStorage) "list emails" none (1 / 2)

/-- C9: the modelled semantic retrieval never returns a pair scoring
below the threshold and is descending by score; consequently every
source citation of the semantic handler over such a storage has
similarity at least the effective threshold. -/
theorem c9_semantic_threshold_order (store : List MailMessage)
    (f : List ℚ → List ℚ → ℚ) (qv : List ℚ) (limit : Nat) (threshold : ℚ)
    (e : RAGQueryEngine) (question : String) (lim : Nat) (thr : ℚ)
    (he : e.storage.similarity_search = similaritySearchModel store f) :
    (∀ p ∈ similaritySearchModel store f qv limit threshold, threshold ≤ p.2) ∧
    List.Pairwise scoreRel (similaritySearchModel store f qv limit threshold) ∧
    ∀ s ∈ (handle_semantic_query e question lim thr).1.sources,
      effectiveThreshold question thr ≤ s.similarity := by
  refine ⟨similaritySearchModel_threshold store f qv limit threshold,
    similaritySearchModel_sorted store f qv limit threshold, ?_⟩
  intro s hs
  cases hq : semanticSearchCall e question lim thr with
  | nil =>
    rw [handle_semantic_query_nil _ _ _ _ hq] at hs
    simp at hs
  | cons p rest =>
    obtain ⟨m0, s0⟩ := p
    rw [handle_semantic_query_cons _ _ _ _ _ _ _ hq] at hs
    simp only [List.mem_map] at hs
    obtain ⟨pp, hpp, rfl⟩ := hs
    rw [← hq] at hpp
    unfold semanticSearchCall at hpp
    rw [he] at hpp
    have := similaritySearchModel_threshold store f (e.embed_text question)
      (effectiveLimit question lim) (effectiveThreshold question thr) pp hpp
    simpa using this

/-- C9 witness: over a one-message corpus scored 0.9, the returned score
meets the 0.5 threshold and the output is score-descending. -/
theorem c9_witness :
    (1 / 2 : ℚ) ≤ (9 / 10 : ℚ) ∧
    List.Pairwise scoreRel (similaritySearchModel c9store c9f [1] 5 (1 / 2)) := by
  have h := c9_semantic_threshold_order c9store c9f [1] 5 (1 / 2)
    (mkEngine c9Storage) "mortgage" 5 (1 / 2) rfl
  refine ⟨?_, h.2.1⟩
  have hm : (c9msg, (9 / 10 : ℚ)) ∈ similaritySearchModel c9store c9f [1] 5 (1 / 2) := by
    have hsc : ((2⁻¹ : ℚ) ≤ 9 / 10) := by norm_num
    unfold similaritySearchModel
    simp [c9store, c9f, c9msg, mkMsg, List.filter_cons, hsc,
      List.insertionSort, List.orderedInsert]
  exact h.1 (c9msg, 9 / 10) hm
